import Mathlib

/-!
Verification of the client-side session/authorization core of the
Enterprise One front end: the Session Store (`AuthProvider` in
`contexts/AuthContext.js`), the Route Guard (`ProtectedRoute` in `App.js`),
and the Role-Scoped Navigation Filter (`AppShell.js`).

The JavaScript is embedded shallowly: React state plus `localStorage`
becomes an explicit record `AuthState`, the axios instance's default
`Authorization` header becomes `syncAuthHeader`, and each async operation
becomes a pure function from the server's response (modelled as a value of
an outcome type) and the pre-state to the post-state.  `fetchUser`
additionally reports how many network requests it issued.
-/

/-- A user profile as returned by `GET /auth/me` or `POST /auth/login`.
Roles are strings in the source (`'super_admin'`, `'employee'`, ...). -/
structure Profile where
  id : String
  name : String
  email : String
  role : String
  deriving Repr, DecidableEq

/-- The state of the Session Store: the React state of `AuthProvider`
(`user`, `token`, `loading`) together with the durable `localStorage`
entry under the key `'token'` (`storage`). -/
structure AuthState where
  user : Option Profile
  token : Option String
  loading : Bool
  storage : Option String
  deriving Repr, DecidableEq

/-- `AuthProvider` initial state: `user` starts `null`, `token` starts as
`localStorage.getItem('token')`, `loading` starts `true`. -/
def initState (stored : Option String) : AuthState :=
  { user := none, token := stored, loading := true, storage := stored }

/-- Outcome of the `GET /auth/me` request for a given bearer token:
success with a profile, an authorization rejection (401/403), or a
network/transport failure.  In the JavaScript both failure cases reject
the promise and land in the same `catch` block. -/
inductive MeResult where
  | success (p : Profile)
  | authError
  | networkError
  deriving Repr, DecidableEq

/-- The `fetchUser` callback of `AuthProvider`:

```js
if (!token) { setLoading(false); return; }
try { const res = await api.get('/auth/me'); setUser(res.data); }
catch { localStorage.removeItem('token'); setToken(null); setUser(null); }
finally { setLoading(false); }
```

`server` gives the outcome of `api.get('/auth/me')` per token.  The second
component counts network requests issued. -/
def fetchUser (server : String → MeResult) (s : AuthState) : AuthState × Nat :=
  match s.token with
  | none => ({ s with loading := false }, 0)
  | some t =>
    match server t with
    | .success p => ({ s with user := some p, loading := false }, 1)
    | .authError =>
        ({ user := none, token := none, loading := false, storage := none }, 1)
    | .networkError =>
        ({ user := none, token := none, loading := false, storage := none }, 1)

/-- Outcome of `POST /auth/login` (and `POST /auth/biometric/login`):
success carries `{ token, user }` from the response body; either failure
rejects the promise, which the `async` function propagates to the caller
before any state update runs. -/
inductive LoginResult where
  | success (token : String) (u : Profile)
  | invalidCredentials
  | networkError
  deriving Repr, DecidableEq

/-- The `login` operation of `AuthProvider`: on success it persists the
new token, sets `token` and `user`, and returns the user; on failure the
exception propagates and no state update runs. -/
def login (r : LoginResult) (s : AuthState) : AuthState × Except Unit Profile :=
  match r with
  | .success t u =>
      ({ s with token := some t, user := some u, storage := some t }, .ok u)
  | .invalidCredentials => (s, .error ())
  | .networkError => (s, .error ())

/-- The `biometricLogin` operation of `AuthProvider`: identical state
handling to `login`, against `POST /auth/biometric/login`. -/
def biometricLogin (r : LoginResult) (s : AuthState) : AuthState × Except Unit Profile :=
  match r with
  | .success t u =>
      ({ s with token := some t, user := some u, storage := some t }, .ok u)
  | .invalidCredentials => (s, .error ())
  | .networkError => (s, .error ())

/-- The `logout` operation of `AuthProvider`:
`localStorage.removeItem('token'); setToken(null); setUser(null);`. -/
def logout (s : AuthState) : AuthState :=
  { s with user := none, token := none, storage := none }

/-- The header-synchronisation effect of `AuthProvider`:

```js
if (token) { api.defaults.headers.common['Authorization'] = `Bearer ${token}`; }
else { delete api.defaults.headers.common['Authorization']; }
```

Returns the value of the `Authorization` default header after the effect
runs, `none` meaning the header is absent. -/
def syncAuthHeader (token : Option String) : Option String :=
  match token with
  | some t => some ("Bearer " ++ t)
  | none => none

/-- The session status of the spec's data model, derived from the stored
state: `loading` while the flag is set, otherwise `authenticated` exactly
when a user is present. -/
inductive SessionStatus where
  | loading
  | authenticated
  | anonymous
  deriving Repr, DecidableEq

/-- Session status as a function of the two fields the UI consumes
(`loading` and `user` from `useAuth()`). -/
def statusOf (loading : Bool) (user : Option Profile) : SessionStatus :=
  if loading then .loading
  else if user.isSome then .authenticated
  else .anonymous

def sessionStatus (s : AuthState) : SessionStatus :=
  statusOf s.loading s.user

/-- The spec's Session invariant: a present user implies a present token,
and an absent user implies an absent token. -/
def sessionInv (s : AuthState) : Prop :=
  (s.user.isSome → s.token.isSome) ∧ (s.user = none → s.token = none)

instance (s : AuthState) : Decidable (sessionInv s) := by
  unfold sessionInv; infer_instance

/-- What `ProtectedRoute` renders: the spinner, a `<Navigate to="/login">`,
or the requested view wrapped in `AppShell`. -/
inductive GuardDecision where
  | waiting
  | redirectToLogin
  | renderShell (view : String)
  deriving Repr, DecidableEq

/-- The `ProtectedRoute` component of `App.js`:

```js
const { user, loading } = useAuth();
if (loading) return <spinner />;
if (!user) return <Navigate to="/login" replace />;
return <AppShell>{children}</AppShell>;
```
-/
def protectedRoute (loading : Bool) (user : Option Profile) (view : String) :
    GuardDecision :=
  if loading then .waiting
  else if user.isNone then .redirectToLogin
  else .renderShell view

/-- The guard decision as a function of session status alone; used to show
`protectedRoute` factors through `sessionStatus`. -/
def guardOfStatus (st : SessionStatus) (view : String) : GuardDecision :=
  match st with
  | .loading => .waiting
  | .anonymous => .redirectToLogin
  | .authenticated => .renderShell view

/-- One navigation entry of `AppShell.js` (`NAV_ITEMS` / `ADMIN_NAV`);
the icon is dropped as pure presentation. -/
structure NavItem where
  path : String
  label : String
  roles : List String
  deriving Repr, DecidableEq

/-- The static `NAV_ITEMS` list of `AppShell.js`. -/
def NAV_ITEMS : List NavItem :=
  [ { path := "/dashboard", label := "Dashboard",
      roles := ["super_admin", "main_handler", "admin", "employee"] },
    { path := "/crm", label := "CRM",
      roles := ["super_admin", "main_handler", "admin"] },
    { path := "/projects", label := "Projects",
      roles := ["super_admin", "main_handler", "admin", "employee"] },
    { path := "/hr", label := "HR",
      roles := ["super_admin", "main_handler", "admin", "employee"] },
    { path := "/finance", label := "Finance",
      roles := ["super_admin", "main_handler", "admin", "employee"] },
    { path := "/subscription", label := "Subscription",
      roles := ["super_admin", "main_handler", "admin", "employee"] } ]

/-- The static `ADMIN_NAV` list of `AppShell.js`. -/
def ADMIN_NAV : List NavItem :=
  [ { path := "/users", label := "Users",
      roles := ["super_admin", "main_handler"] },
    { path := "/audit-logs", label := "Audit Logs",
      roles := ["super_admin", "main_handler"] } ]

/-- The role filter of `AppShell.js`:
`items.filter(n => n.roles.includes(role))`, applied there to `NAV_ITEMS`
(as `filteredNav`) and to `ADMIN_NAV` (as `filteredAdmin`). -/
def navFilter (role : String) (items : List NavItem) : List NavItem :=
  items.filter (fun n => n.roles.contains role)

/-- `filteredNav` for a logged-in user of the given role. -/
def filteredNav (role : String) : List NavItem := navFilter role NAV_ITEMS

/-- `filteredAdmin` for a logged-in user of the given role. -/
def filteredAdmin (role : String) : List NavItem := navFilter role ADMIN_NAV

/-! Concrete values used by witnesses and counterexamples. -/

def wProfile : Profile :=
  { id := "u1", name := "Emily Park", email := "emily@example.com", role := "employee" }

/-- An authenticated state holding token `"T"` in memory and storage. -/
def wAuthState : AuthState :=
  { user := some wProfile, token := some "T", loading := false, storage := some "T" }

/-- A server that rejects every `/auth/me` request as unauthorized. -/
def wAuthErrServer : String → MeResult := fun _ => MeResult.authError

/-- A server unreachable over the network. -/
def wNetErrServer : String → MeResult := fun _ => MeResult.networkError

/-- A server that answers every `/auth/me` request with `wProfile`. -/
def wOkServer : String → MeResult := fun _ => MeResult.success wProfile

theorem fetchUser_initState_inv (server : String → MeResult) (stored : Option String) :
    sessionInv (fetchUser server (initState stored)).1 := by
  cases stored with
  | none => simp [fetchUser, initState, sessionInv]
  | some t =>
    cases h : server t <;>
      simp [fetchUser, initState, sessionInv, h]

theorem fetchUser_preserves_inv (server : String → MeResult) (s : AuthState)
    (h : sessionInv s) : sessionInv (fetchUser server s).1 := by
  cases htok : s.token with
  | none =>
    have hre : (fetchUser server s).1 = { s with loading := false } := by
      simp [fetchUser, htok]
    rw [hre]
    exact h
  | some t =>
    cases hr : server t <;>
      simp [fetchUser, htok, hr, sessionInv]

/-- C1: after the bootstrap refresh settles, a present user comes with a
present token and an absent user with an absent token; `fetchUser`,
`login`, `biometricLogin` and `logout` each preserve the invariant. -/
theorem c1_session_invariant (server : String → MeResult) (stored : Option String)
    (s : AuthState) (r : LoginResult) (h : sessionInv s) :
    sessionInv (fetchUser server (initState stored)).1 ∧
    sessionInv (fetchUser server s).1 ∧
    sessionInv (login r s).1 ∧
    sessionInv (biometricLogin r s).1 ∧
    sessionInv (logout s) := by
  refine ⟨fetchUser_initState_inv server stored, fetchUser_preserves_inv server s h,
          ?_, ?_, ?_⟩
  · cases r with
    | success t u => simp [login, sessionInv]
    | invalidCredentials => exact h
    | networkError => exact h
  · cases r with
    | success t u => simp [biometricLogin, sessionInv]
    | invalidCredentials => exact h
    | networkError => exact h
  · simp [logout, sessionInv]

theorem c1_session_invariant_witness :
    sessionInv wAuthState ∧
    (sessionInv (fetchUser wAuthErrServer (initState none)).1 ∧
     sessionInv (fetchUser wAuthErrServer wAuthState).1 ∧
     sessionInv (login .invalidCredentials wAuthState).1 ∧
     sessionInv (biometricLogin .invalidCredentials wAuthState).1 ∧
     sessionInv (logout wAuthState)) :=
  ⟨by decide, c1_session_invariant wAuthErrServer none wAuthState .invalidCredentials (by decide)⟩

/-- C2: if the token in hand is rejected as unauthorized by `/auth/me`,
`fetchUser` ends with status anonymous, the user and token cleared, and
the durable storage no longer holding that token. -/
theorem c2_refresh_auth_error_clears (server : String → MeResult) (s : AuthState)
    (t : String) (htok : s.token = some t) (herr : server t = .authError) :
    sessionStatus (fetchUser server s).1 = .anonymous ∧
    (fetchUser server s).1.user = none ∧
    (fetchUser server s).1.token = none ∧
    (fetchUser server s).1.storage = none ∧
    (fetchUser server s).1.storage ≠ some t := by
  simp [fetchUser, htok, herr, sessionStatus, statusOf]

theorem c2_refresh_auth_error_clears_witness :
    sessionStatus (fetchUser wAuthErrServer wAuthState).1 = .anonymous ∧
    (fetchUser wAuthErrServer wAuthState).1.user = none ∧
    (fetchUser wAuthErrServer wAuthState).1.token = none ∧
    (fetchUser wAuthErrServer wAuthState).1.storage = none ∧
    (fetchUser wAuthErrServer wAuthState).1.storage ≠ some "T" :=
  c2_refresh_auth_error_clears wAuthErrServer wAuthState "T" rfl rfl

/-- C3 as stated is false: in the source the `catch` of `fetchUser` does
not distinguish a network failure from an authorization rejection, so a
network failure during refresh also logs the user out.  Starting from the
authenticated state `wAuthState`, a refresh against an unreachable server
changes the state and clears the user. -/
theorem c3_network_failure_clears_counterexample :
    (fetchUser wNetErrServer wAuthState).1 ≠ wAuthState ∧
    (fetchUser wNetErrServer wAuthState).1.user = none ∧
    (fetchUser wNetErrServer wAuthState).1.storage = none := by
  refine ⟨?_, rfl, rfl⟩
  intro h
  have : (fetchUser wNetErrServer wAuthState).1.user = wAuthState.user := by rw [h]
  simp [fetchUser, wAuthState, wNetErrServer] at this

/-- C3 amended: a network/transport failure during refresh is handled
exactly like an authorization rejection — the session is cleared (user,
token and durable storage) and status becomes anonymous. -/
theorem c3_refresh_network_error_clears (server : String → MeResult) (s : AuthState)
    (t : String) (htok : s.token = some t) (herr : server t = .networkError) :
    sessionStatus (fetchUser server s).1 = .anonymous ∧
    (fetchUser server s).1 =
      { user := none, token := none, loading := false, storage := none } := by
  simp [fetchUser, htok, herr, sessionStatus, statusOf]

theorem c3_refresh_network_error_clears_witness :
    sessionStatus (fetchUser wNetErrServer wAuthState).1 = .anonymous ∧
    (fetchUser wNetErrServer wAuthState).1 =
      { user := none, token := none, loading := false, storage := none } :=
  c3_refresh_network_error_clears wNetErrServer wAuthState "T" rfl rfl

/-- C4: a token present in durable storage at startup whose `/auth/me`
request succeeds yields status authenticated with the profile exactly as
the server returned it (and the token kept). -/
theorem c4_refresh_success (server : String → MeResult) (t : String) (p : Profile)
    (h : server t = .success p) :
    sessionStatus (fetchUser server (initState (some t))).1 = .authenticated ∧
    (fetchUser server (initState (some t))).1.user = some p ∧
    (fetchUser server (initState (some t))).1.token = some t ∧
    (fetchUser server (initState (some t))).1.storage = some t := by
  simp [fetchUser, initState, sessionStatus, statusOf, h]

theorem c4_refresh_success_witness :
    sessionStatus (fetchUser wOkServer (initState (some "T"))).1 = .authenticated ∧
    (fetchUser wOkServer (initState (some "T"))).1.user = some wProfile ∧
    (fetchUser wOkServer (initState (some "T"))).1.token = some "T" ∧
    (fetchUser wOkServer (initState (some "T"))).1.storage = some "T" :=
  c4_refresh_success wOkServer "T" wProfile rfl

/-- C5: a failing `login` (invalid credentials or network error) leaves
the whole state — token, user, durable storage — untouched and propagates
the error to the caller. -/
theorem c5_login_failure_state_unchanged (s : AuthState) :
    (login .invalidCredentials s).1 = s ∧
    (login .invalidCredentials s).2 = .error () ∧
    (login .networkError s).1 = s ∧
    (login .networkError s).2 = .error () := by
  simp [login]

/-- C6: the Route Guard's decision factors through session status alone
(so it never consults the role, or any other profile field): while
loading it renders the waiting indicator, with no user it redirects to
login, and with a user it renders the requested view inside the shell. -/
theorem c6_route_guard_pure_in_status (loading : Bool) (user : Option Profile)
    (view : String) :
    protectedRoute loading user view = guardOfStatus (statusOf loading user) view ∧
    protectedRoute true user view = .waiting ∧
    protectedRoute false none view = .redirectToLogin ∧
    (∀ p : Profile, protectedRoute false (some p) view = .renderShell view) ∧
    (∀ p q : Profile, protectedRoute loading (some p) view =
      protectedRoute loading (some q) view) := by
  refine ⟨?_, rfl, rfl, fun p => rfl, fun p q => ?_⟩
  · cases loading with
    | true => rfl
    | false => cases user <;> rfl
  · cases loading <;> rfl

/-- C7: the navigation filter returns exactly the ordered sub-sequence of
entries whose `roles` contains the given role; for role `employee` the
visible entries are Dashboard, Projects, HR, Finance and Subscription,
with neither CRM (filtered from `NAV_ITEMS`) nor Users (filtered from
`ADMIN_NAV`, which is empty for employees) included. -/
theorem c7_nav_filter_role_subsequence (role : String) (items : List NavItem) :
    List.Sublist (navFilter role items) items ∧
    (∀ e : NavItem, e ∈ navFilter role items ↔ e ∈ items ∧ role ∈ e.roles) ∧
    (filteredNav "employee").map NavItem.label =
      ["Dashboard", "Projects", "HR", "Finance", "Subscription"] ∧
    (∀ e ∈ filteredNav "employee", e.label ≠ "CRM") ∧
    filteredAdmin "employee" = [] ∧
    (∀ e ∈ filteredAdmin "employee", e.label ≠ "Users") := by
  refine ⟨List.filter_sublist items, fun e => ?_, by decide, by decide, by decide, by decide⟩
  simp [navFilter, List.mem_filter]

/-- C8: with no token in hand `fetchUser` makes no network request; in
particular after `logout()`, and at startup with empty durable storage,
the refresh issues zero requests and settles on status anonymous. -/
theorem c8_no_token_no_network_call (server : String → MeResult) (s : AuthState)
    (h : s.token = none) :
    (fetchUser server s).2 = 0 ∧
    (fetchUser server (logout s)).2 = 0 ∧
    sessionStatus (fetchUser server (logout s)).1 = .anonymous ∧
    (fetchUser server (initState none)).2 = 0 ∧
    sessionStatus (fetchUser server (initState none)).1 = .anonymous := by
  refine ⟨by simp [fetchUser, h], by simp [fetchUser, logout], ?_,
          by simp [fetchUser, initState], ?_⟩ <;>
    simp [fetchUser, logout, initState, sessionStatus, statusOf]

theorem c8_no_token_no_network_call_witness :
    (initState none).token = none ∧
    ((fetchUser wAuthErrServer (initState none)).2 = 0 ∧
     (fetchUser wAuthErrServer (logout (initState none))).2 = 0 ∧
     sessionStatus (fetchUser wAuthErrServer (logout (initState none))).1 = .anonymous ∧
     (fetchUser wAuthErrServer (initState none)).2 = 0 ∧
     sessionStatus (fetchUser wAuthErrServer (initState none)).1 = .anonymous) :=
  ⟨rfl, c8_no_token_no_network_call wAuthErrServer (initState none) rfl⟩

/-- C9: after the header-synchronisation effect, the `Authorization`
default header is `Bearer <token>` exactly when a token is present and
absent otherwise — never present but empty — and this holds at the token
produced by `login`, `logout` and `fetchUser`. -/
theorem c9_authorization_header (tok : Option String) (server : String → MeResult)
    (s : AuthState) (t : String) (u : Profile) :
    syncAuthHeader none = none ∧
    syncAuthHeader (some t) = some ("Bearer " ++ t) ∧
    (syncAuthHeader tok).isSome = tok.isSome ∧
    syncAuthHeader tok ≠ some "" ∧
    syncAuthHeader (logout s).token = none ∧
    syncAuthHeader (login (.success t u) s).1.token = some ("Bearer " ++ t) ∧
    (syncAuthHeader (fetchUser server s).1.token).isSome =
      (fetchUser server s).1.token.isSome := by
  refine ⟨rfl, rfl, ?_, ?_, rfl, rfl, ?_⟩
  · cases tok <;> rfl
  · cases tok with
    | none => simp [syncAuthHeader]
    | some t' =>
      intro hcontr
      have heq : "Bearer " ++ t' = "" := Option.some.inj hcontr
      have hlen : ("Bearer " ++ t').length = 0 := by rw [heq]; rfl
      rw [String.length_append] at hlen
      have h7 : "Bearer ".length = 7 := rfl
      rw [h7] at hlen
      omega
  · cases (fetchUser server s).1.token <;> rfl

theorem c9_authorization_header_witness :
    syncAuthHeader none = none ∧
    syncAuthHeader (some "T") = some ("Bearer " ++ "T") ∧
    (syncAuthHeader (some "T")).isSome = (some "T").isSome ∧
    syncAuthHeader (some "T") ≠ some "" ∧
    syncAuthHeader (logout wAuthState).token = none ∧
    syncAuthHeader (login (.success "T" wProfile) wAuthState).1.token =
      some ("Bearer " ++ "T") ∧
    (syncAuthHeader (fetchUser wAuthErrServer wAuthState).1.token).isSome =
      (fetchUser wAuthErrServer wAuthState).1.token.isSome :=
  c9_authorization_header (some "T") wAuthErrServer wAuthState "T" wProfile

/-- C10: every settlement of `fetchUser` — no token, success, and failure
alike — ends with `loading = false`, so the status is never `loading` and
the Route Guard never shows the waiting indicator afterwards. -/
theorem c10_refresh_always_settles_loading (server : String → MeResult)
    (s : AuthState) (view : String) :
    (fetchUser server s).1.loading = false ∧
    sessionStatus (fetchUser server s).1 ≠ .loading ∧
    protectedRoute (fetchUser server s).1.loading (fetchUser server s).1.user view ≠
      .waiting := by
  have hload : (fetchUser server s).1.loading = false := by
    cases htok : s.token with
    | none => simp [fetchUser, htok]
    | some t => cases hr : server t <;> simp [fetchUser, htok, hr]
  refine ⟨hload, ?_, ?_⟩
  · simp [sessionStatus, statusOf, hload]
    cases (fetchUser server s).1.user <;> simp
  · simp [protectedRoute, hload]
    cases (fetchUser server s).1.user <;> simp

theorem c10_refresh_always_settles_loading_witness :
    (fetchUser wOkServer wAuthState).1.loading = false ∧
    sessionStatus (fetchUser wOkServer wAuthState).1 ≠ .loading ∧
    protectedRoute (fetchUser wOkServer wAuthState).1.loading
      (fetchUser wOkServer wAuthState).1.user "/dashboard" ≠ .waiting :=
  c10_refresh_always_settles_loading wOkServer wAuthState "/dashboard"
